import Mathlib

/-!
Verification of the Cricbuzz LiveStats ingestion pipeline.

Shallow embedding of the ingestion code in `data_fetcher.py` and the
query facade in `utils/db_connection.py`.  Database tables are modelled
as lists of row structures; SQL statements become explicit list
transformations mirroring the SQLite conflict semantics used by the
source (INSERT OR IGNORE, INSERT OR REPLACE, ON CONFLICT DO UPDATE).
SQL REAL arithmetic is modelled exactly over the rationals.
-/

/-! ## MD5 (as used by hashlib.md5 in generate_player_id)

A faithful executable MD5 over byte lists, words represented as natural
numbers reduced modulo 2^32. -/

def M32 : Nat := 4294967296

def rotl32 (x s : Nat) : Nat :=
  Nat.lor ((x * 2 ^ s) % M32) (x / 2 ^ (32 - s))

def md5K : List Nat :=
  [0xd76aa478, 0xe8c7b756, 0x242070db, 0xc1bdceee,
   0xf57c0faf, 0x4787c62a, 0xa8304613, 0xfd469501,
   0x698098d8, 0x8b44f7af, 0xffff5bb1, 0x895cd7be,
   0x6b901122, 0xfd987193, 0xa679438e, 0x49b40821,
   0xf61e2562, 0xc040b340, 0x265e5a51, 0xe9b6c7aa,
   0xd62f105d, 0x02441453, 0xd8a1e681, 0xe7d3fbc8,
   0x21e1cde6, 0xc33707d6, 0xf4d50d87, 0x455a14ed,
   0xa9e3e905, 0xfcefa3f8, 0x676f02d9, 0x8d2a4c8a,
   0xfffa3942, 0x8771f681, 0x6d9d6122, 0xfde5380c,
   0xa4beea44, 0x4bdecfa9, 0xf6bb4b60, 0xbebfbc70,
   0x289b7ec6, 0xeaa127fa, 0xd4ef3085, 0x04881d05,
   0xd9d4d039, 0xe6db99e5, 0x1fa27cf8, 0xc4ac5665,
   0xf4292244, 0x432aff97, 0xab9423a7, 0xfc93a039,
   0x655b59c3, 0x8f0ccc92, 0xffeff47d, 0x85845dd1,
   0x6fa87e4f, 0xfe2ce6e0, 0xa3014314, 0x4e0811a1,
   0xf7537e82, 0xbd3af235, 0x2ad7d2bb, 0xeb86d391]

def md5S : List Nat :=
  [7, 12, 17, 22, 7, 12, 17, 22, 7, 12, 17, 22, 7, 12, 17, 22,
   5, 9, 14, 20, 5, 9, 14, 20, 5, 9, 14, 20, 5, 9, 14, 20,
   4, 11, 16, 23, 4, 11, 16, 23, 4, 11, 16, 23, 4, 11, 16, 23,
   6, 10, 15, 21, 6, 10, 15, 21, 6, 10, 15, 21, 6, 10, 15, 21]

def md5F (i b c d : Nat) : Nat :=
  if i < 16 then Nat.lor (Nat.land b c) (Nat.land (4294967295 - b) d)
  else if i < 32 then Nat.lor (Nat.land d b) (Nat.land (4294967295 - d) c)
  else if i < 48 then Nat.xor b (Nat.xor c d)
  else Nat.xor c (Nat.lor b (4294967295 - d))

def md5G (i : Nat) : Nat :=
  if i < 16 then i
  else if i < 32 then (5 * i + 1) % 16
  else if i < 48 then (3 * i + 5) % 16
  else (7 * i) % 16

structure MD5State where
  a : Nat
  b : Nat
  c : Nat
  d : Nat
  deriving Repr, DecidableEq

def md5Round (w : Nat → Nat) (st : MD5State) (i : Nat) : MD5State :=
  let f := (md5F i st.b st.c st.d + st.a + md5K.getD i 0 + w (md5G i)) % M32
  ⟨st.d, (st.b + rotl32 f (md5S.getD i 0)) % M32, st.b, st.c⟩

def md5Word (chunk : List Nat) (g : Nat) : Nat :=
  chunk.getD (4 * g) 0 + 256 * chunk.getD (4 * g + 1) 0 +
    65536 * chunk.getD (4 * g + 2) 0 + 16777216 * chunk.getD (4 * g + 3) 0

def md5ProcessChunk (st : MD5State) (chunk : List Nat) : MD5State :=
  let r := (List.range 64).foldl (md5Round (md5Word chunk)) st
  ⟨(st.a + r.a) % M32, (st.b + r.b) % M32, (st.c + r.c) % M32, (st.d + r.d) % M32⟩

def leBytes : Nat → Nat → List Nat
  | 0, _ => []
  | k + 1, n => (n % 256) :: leBytes k (n / 256)

def md5Pad (msg : List Nat) : List Nat :=
  let len := msg.length
  msg ++ 128 :: List.replicate ((119 - len % 64) % 64) 0 ++
    leBytes 8 ((8 * len) % 2 ^ 64)

def chunks64 (l : List Nat) : List (List Nat) :=
  if h : l = [] then []
  else
    have : l.length - 64 < l.length := by
      cases l with
      | nil => exact absurd rfl h
      | cons x xs => simp; omega
    l.take 64 :: chunks64 (l.drop 64)
termination_by l.length
decreasing_by simpa using this

def md5Bytes (msg : List Nat) : List Nat :=
  let st := (chunks64 (md5Pad msg)).foldl md5ProcessChunk
    ⟨0x67452301, 0xefcdab89, 0x98badcfe, 0x10325476⟩
  leBytes 4 st.a ++ leBytes 4 st.b ++ leBytes 4 st.c ++ leBytes 4 st.d

def hexDigit (n : Nat) : Char :=
  if n < 10 then Char.ofNat (48 + n) else Char.ofNat (87 + n)

/-- Lowercase hexadecimal digest string, as hashlib hexdigest returns. -/
def md5Hex (msg : List Nat) : String :=
  String.mk ((md5Bytes msg).foldr (fun b acc => hexDigit (b / 16) :: hexDigit (b % 16) :: acc) [])

def hexVal (c : Char) : Nat :=
  if 97 ≤ c.toNat then c.toNat - 87 else c.toNat - 48

/-- int(s, 16) on a hex string already known to be well formed. -/
def parseHexNat (cs : List Char) : Nat :=
  cs.foldl (fun acc c => 16 * acc + hexVal c) 0

/-- UTF-8 bytes of one character, as str.encode produces. -/
def utf8CharBytes (c : Char) : List Nat :=
  let n := c.toNat
  if n < 128 then [n]
  else if n < 2048 then [192 + n / 64, 128 + n % 64]
  else if n < 65536 then [224 + n / 4096, 128 + (n / 64) % 64, 128 + n % 64]
  else [240 + n / 262144, 128 + (n / 4096) % 64, 128 + (n / 64) % 64, 128 + n % 64]

def strBytes (s : String) : List Nat :=
  s.data.foldr (fun c acc => utf8CharBytes c ++ acc) []

/-- Rendering of the team id inside the f-string of generate_player_id.
The call sites pass a value read from the payload, which may be absent
(None); an f-string renders None as the text None. -/
def pyIntStr : Option Int → String
  | some n => toString n
  | none => "None"

/-- generate_player_id from data_fetcher.py: md5 of
key_name_teamid, first 8 hex digits parsed as an integer (nonnegative,
so the abs in the source is the identity), folded by modulo 999999999
and offset 1000000. -/
def generate_player_id (player_key player_name : String) (team_id : Option Int) : Nat :=
  let unique_string := player_key ++ "_" ++ player_name ++ "_" ++ pyIntStr team_id
  let player_id := parseHexNat ((md5Hex (strBytes unique_string)).toList.take 8)
  player_id % 999999999 + 1000000

/-! ## Team country back-fill (determine_country_from_team_name) -/

/-- country_mapping from determine_country_from_team_name, in source
(dict insertion) order. -/
def country_mapping : List (String × String) :=
  [("india", "India"), ("australia", "Australia"), ("england", "England"),
   ("pakistan", "Pakistan"), ("south africa", "South Africa"),
   ("new zealand", "New Zealand"), ("sri lanka", "Sri Lanka"),
   ("bangladesh", "Bangladesh"), ("afghanistan", "Afghanistan"),
   ("west indies", "West Indies"), ("ireland", "Ireland"),
   ("scotland", "Scotland"), ("netherlands", "Netherlands"),
   ("zimbabwe", "Zimbabwe"), ("hong kong", "Hong Kong"),
   ("uae", "United Arab Emirates"),
   ("united arab emirates", "United Arab Emirates")]

def startsW : List Char → List Char → Bool
  | [], _ => true
  | _ :: _, [] => false
  | a :: as, b :: bs => a == b && startsW as bs

/-- The in operator on strings: does p occur as a contiguous substring of s? -/
def occursIn (p : List Char) : List Char → Bool
  | [] => startsW p []
  | c :: s => startsW p (c :: s) || occursIn p s

/-- str.lower, character by character (the mapping keys and the claims
under proof are ASCII). -/
def pyLower (s : String) : String :=
  String.mk (s.data.map Char.toLower)

/-- Whether a mapping key matches the lowercased team name. -/
def keyMatches (team_name : String) (kv : String × String) : Bool :=
  occursIn kv.1.data (pyLower team_name).data

/-- determine_country_from_team_name from data_fetcher.py. -/
def determine_country_from_team_name (team_name : String) : String :=
  match country_mapping.find? (keyMatches team_name) with
  | some kv => kv.2
  | none => team_name

/-! ## Theorems: Identity Resolver (C2) and country back-fill (C9) -/

theorem generate_player_id_eq (k n : String) (t : Option Int) :
    generate_player_id k n t =
      parseHexNat ((md5Hex (strBytes (k ++ "_" ++ n ++ "_" ++ pyIntStr t))).toList.take 8)
        % 999999999 + 1000000 := rfl

/-- C2: generate_player_id is a pure deterministic function of the
(player_key, player_name, team_id) triple — repeated calls agree — and
its value always lies in the declared positive band arising from the
modulo 999999999 fold and the 1000000 offset. -/
theorem generate_player_id_pure_and_bounded :
    ∀ (k n : String) (t : Option Int),
      generate_player_id k n t = generate_player_id k n t ∧
      1000000 ≤ generate_player_id k n t ∧
      generate_player_id k n t < 1000999999 := by
  intro k n t
  refine ⟨rfl, ?_, ?_⟩ <;> rw [generate_player_id_eq] <;> omega

/-- C9: the team-country back-fill resolves a name by substring lookup
against the fixed mapping, the first matching key (in source order)
wins, and a name matching no key passes through unchanged; in
particular a team named Royal Pakistan XI resolves to Pakistan. -/
theorem determine_country_from_team_name_spec :
    determine_country_from_team_name "Royal Pakistan XI" = "Pakistan" ∧
    (∀ name kv, country_mapping.find? (keyMatches name) = some kv →
      determine_country_from_team_name name = kv.2) ∧
    (∀ name, country_mapping.find? (keyMatches name) = none →
      determine_country_from_team_name name = name) := by
  refine ⟨by decide, ?_, ?_⟩
  · intro name kv h
    unfold determine_country_from_team_name
    rw [h]
  · intro name h
    unfold determine_country_from_team_name
    rw [h]

theorem determine_country_from_team_name_spec_witness :
    country_mapping.find? (keyMatches "Hong Kong Dragons") =
      some ("hong kong", "Hong Kong") ∧
    determine_country_from_team_name "Hong Kong Dragons" = "Hong Kong" :=
  ⟨by decide,
   determine_country_from_team_name_spec.2.1 "Hong Kong Dragons"
     ("hong kong", "Hong Kong") (by decide)⟩

/-! ## Match Ingestor (store_match_data)

Payload shapes mirror exactly the keys the source reads from the
match-listing JSON; a missing key is None. -/

structure TeamInfo where
  teamId : Option Int
  teamName : Option String
  teamSName : Option String
  deriving Repr, DecidableEq

structure VenueInfo where
  id : Option Int
  ground : Option String
  city : Option String
  deriving Repr, DecidableEq

structure MatchInfo where
  matchId : Option Int
  matchDesc : Option String
  matchFormat : Option String
  startDate : Option Int
  stateTitle : Option String
  team1 : Option TeamInfo
  team2 : Option TeamInfo
  venueInfo : Option VenueInfo
  deriving Repr, DecidableEq

structure MatchData where
  matchInfo : Option MatchInfo
  deriving Repr, DecidableEq

def emptyTeamInfo : TeamInfo := ⟨none, none, none⟩

def emptyVenueInfo : VenueInfo := ⟨none, none, none⟩

def emptyMatchInfo : MatchInfo := ⟨none, none, none, none, none, none, none, none⟩

structure TeamRow where
  team_id : Int
  team_name : String
  team_sname : Option String
  deriving Repr, DecidableEq

structure VenueRow where
  venue_id : Int
  venue_name : String
  city : Option String
  deriving Repr, DecidableEq

structure MatchRow where
  match_id : Int
  match_desc : Option String
  match_format : Option String
  match_date : Option Int
  series_id : Option Int
  team1_id : Option Int
  team2_id : Option Int
  venue_id : Option Int
  toss_winner_id : Option Int
  toss_decision : Option String
  match_winner_id : Option Int
  victory_margin : Option Int
  victory_type : Option String
  match_status : String
  deriving Repr, DecidableEq

/-- A teams insert conflicts on the team_id primary key or on the
unique team_name column. -/
def teamConflict (r t : TeamRow) : Bool :=
  t.team_id == r.team_id || t.team_name == r.team_name

/-- INSERT OR IGNORE INTO teams. -/
def insertOrIgnoreTeam (ts : List TeamRow) (r : TeamRow) : List TeamRow :=
  if ts.any (teamConflict r) then ts else ts ++ [r]

/-- INSERT OR IGNORE INTO venues (conflict on the venue_id key). -/
def insertOrIgnoreVenue (vs : List VenueRow) (r : VenueRow) : List VenueRow :=
  if vs.any (fun v => v.venue_id == r.venue_id) then vs else vs ++ [r]

/-- INSERT OR REPLACE INTO matches keyed by match_id: any existing row
with the same key is removed and the new row inserted. -/
def insertOrReplaceMatch (ms : List MatchRow) (r : MatchRow) : List MatchRow :=
  ms.filter (fun m => !(m.match_id == r.match_id)) ++ [r]

/-- The guarded team write of store_match_data: skipped when teamId is
absent or 0 (the falsiness test of the source). -/
def teamUpsert (ts : List TeamRow) (ti : TeamInfo) : List TeamRow :=
  match ti.teamId with
  | some tid =>
      if tid = 0 then ts
      else insertOrIgnoreTeam ts ⟨tid, ti.teamName.getD "Unknown Team", ti.teamSName⟩
  | none => ts

/-- The guarded venue write of store_match_data. -/
def venueUpsert (vs : List VenueRow) (vi : VenueInfo) : List VenueRow :=
  match vi.id with
  | some vid =>
      if vid = 0 then vs
      else insertOrIgnoreVenue vs ⟨vid, vi.ground.getD "Unknown Venue", vi.city⟩
  | none => vs

/-- Calendar date from the millisecond start timestamp.  The source
renders a local calendar date via fromtimestamp; the embedding keeps the
timezone-independent epoch day count (the claims under proof never
inspect the value).  A falsy (absent or zero) timestamp yields NULL. -/
def matchDateOf (mi : MatchInfo) : Option Int :=
  match mi.startDate with
  | some ts => if ts = 0 then none else some (ts / 1000 / 86400)
  | none => none

/-- The matches row written by store_match_data.  Columns not named in
the INSERT get their schema defaults (NULL) because OR REPLACE rebuilds
the whole row. -/
def extractedMatchRow (md : MatchData) (series_id : Option Int) (is_live : Bool) : MatchRow :=
  let mi := md.matchInfo.getD emptyMatchInfo
  { match_id := mi.matchId.getD 0
    match_desc := mi.matchDesc
    match_format := mi.matchFormat
    match_date := matchDateOf mi
    series_id := series_id
    team1_id := (mi.team1.getD emptyTeamInfo).teamId
    team2_id := (mi.team2.getD emptyTeamInfo).teamId
    venue_id := (mi.venueInfo.getD emptyVenueInfo).id
    toss_winner_id := none
    toss_decision := none
    match_winner_id := none
    victory_margin := none
    victory_type := none
    match_status := if is_live then "Live" else mi.stateTitle.getD "Completed" }

structure MatchDB where
  teams : List TeamRow
  venues : List VenueRow
  -- the matches table; named matchRows because matches is a keyword here
  matchRows : List MatchRow
  deriving Repr, DecidableEq

/-- store_match_data from data_fetcher.py: returns without writing when
the match id is falsy, otherwise upserts the two teams (insert-if-
absent), the venue (insert-if-absent) and the match (insert-or-replace).
Each statement touches a single table, so the writes are grouped per
table. -/
def store_match_data (db : MatchDB) (md : MatchData) (series_id : Option Int)
    (is_live : Bool) : MatchDB :=
  let mi := md.matchInfo.getD emptyMatchInfo
  match mi.matchId with
  | none => db
  | some mid =>
    if mid = 0 then db
    else
      { teams := teamUpsert (teamUpsert db.teams (mi.team1.getD emptyTeamInfo))
          (mi.team2.getD emptyTeamInfo)
        venues := venueUpsert db.venues (mi.venueInfo.getD emptyVenueInfo)
        matchRows := insertOrReplaceMatch db.matchRows (extractedMatchRow md series_id is_live) }

/-! ## Theorems: Match Ingestor upsert-replace (C3) -/

theorem insertOrReplaceMatch_filter (ms : List MatchRow) (r : MatchRow) :
    (insertOrReplaceMatch ms r).filter (fun m => m.match_id == r.match_id) = [r] := by
  simp [insertOrReplaceMatch, List.filter_append, List.filter_filter]

theorem insertOrReplaceMatch_idem (ms : List MatchRow) (r : MatchRow) :
    insertOrReplaceMatch (insertOrReplaceMatch ms r) r = insertOrReplaceMatch ms r := by
  simp [insertOrReplaceMatch, List.filter_append, List.filter_filter]

theorem insertOrIgnoreTeam_of_any (ts : List TeamRow) (r : TeamRow)
    (h : ts.any (teamConflict r) = true) : insertOrIgnoreTeam ts r = ts := by
  unfold insertOrIgnoreTeam
  rw [if_pos h]

theorem any_insertOrIgnoreTeam_self (ts : List TeamRow) (r : TeamRow) :
    (insertOrIgnoreTeam ts r).any (teamConflict r) = true := by
  unfold insertOrIgnoreTeam
  split
  · next h => exact h
  · simp [List.any_append, teamConflict]

theorem any_insertOrIgnoreTeam_mono (ts : List TeamRow) (r2 r : TeamRow)
    (h : ts.any (teamConflict r) = true) :
    (insertOrIgnoreTeam ts r2).any (teamConflict r) = true := by
  unfold insertOrIgnoreTeam
  split
  · exact h
  · simp [List.any_append, h]

theorem any_teamUpsert_mono (ts : List TeamRow) (ti : TeamInfo) (r : TeamRow)
    (h : ts.any (teamConflict r) = true) :
    (teamUpsert ts ti).any (teamConflict r) = true := by
  cases hti : ti.teamId with
  | none => simpa [teamUpsert, hti] using h
  | some tid =>
    by_cases h0 : tid = 0
    · simpa [teamUpsert, hti, h0] using h
    · simp only [teamUpsert, hti, if_neg h0]
      exact any_insertOrIgnoreTeam_mono _ _ _ h

theorem teamUpsert_eq_of_some (ts : List TeamRow) (ti : TeamInfo) (tid : Int)
    (hti : ti.teamId = some tid) (h0 : tid ≠ 0) :
    teamUpsert ts ti = insertOrIgnoreTeam ts ⟨tid, ti.teamName.getD "Unknown Team", ti.teamSName⟩ := by
  simp [teamUpsert, hti, h0]

theorem teamUpsert_idem (ts : List TeamRow) (ti : TeamInfo) :
    teamUpsert (teamUpsert ts ti) ti = teamUpsert ts ti := by
  cases hti : ti.teamId with
  | none => simp [teamUpsert, hti]
  | some tid =>
    by_cases h0 : tid = 0
    · simp [teamUpsert, hti, h0]
    · rw [teamUpsert_eq_of_some _ _ _ hti h0, teamUpsert_eq_of_some _ _ _ hti h0]
      exact insertOrIgnoreTeam_of_any _ _ (any_insertOrIgnoreTeam_self _ _)

theorem teamUpsert_absorb (ts : List TeamRow) (ti tj : TeamInfo) :
    teamUpsert (teamUpsert (teamUpsert ts ti) tj) ti = teamUpsert (teamUpsert ts ti) tj := by
  cases hti : ti.teamId with
  | none => simp [teamUpsert, hti]
  | some tid =>
    by_cases h0 : tid = 0
    · simp [teamUpsert, hti, h0]
    · rw [teamUpsert_eq_of_some _ _ _ hti h0, teamUpsert_eq_of_some _ _ _ hti h0]
      exact insertOrIgnoreTeam_of_any _ _
        (any_teamUpsert_mono _ _ _ (any_insertOrIgnoreTeam_self _ _))

theorem insertOrIgnoreVenue_idem (vs : List VenueRow) (r : VenueRow) :
    insertOrIgnoreVenue (insertOrIgnoreVenue vs r) r = insertOrIgnoreVenue vs r := by
  by_cases h : vs.any (fun v => v.venue_id == r.venue_id) = true
  · simp [insertOrIgnoreVenue, h]
  · simp [insertOrIgnoreVenue, h, List.any_append]

theorem venueUpsert_idem (vs : List VenueRow) (vi : VenueInfo) :
    venueUpsert (venueUpsert vs vi) vi = venueUpsert vs vi := by
  cases hvi : vi.id with
  | none => simp [venueUpsert, hvi]
  | some vid =>
    by_cases h0 : vid = 0
    · simp [venueUpsert, hvi, h0]
    · simp only [venueUpsert, hvi, if_neg h0]
      exact insertOrIgnoreVenue_idem _ _

theorem store_match_data_eq (db : MatchDB) (md : MatchData) (s : Option Int) (l : Bool)
    (mid : Int) (h : (md.matchInfo.getD emptyMatchInfo).matchId = some mid) (h0 : mid ≠ 0) :
    store_match_data db md s l =
      { teams := teamUpsert (teamUpsert db.teams
            ((md.matchInfo.getD emptyMatchInfo).team1.getD emptyTeamInfo))
          ((md.matchInfo.getD emptyMatchInfo).team2.getD emptyTeamInfo)
        venues := venueUpsert db.venues ((md.matchInfo.getD emptyMatchInfo).venueInfo.getD emptyVenueInfo)
        matchRows := insertOrReplaceMatch db.matchRows (extractedMatchRow md s l) } := by
  simp only [store_match_data, h]
  simp [h0]

/-- C3: the match write is an upsert-replace keyed by match_id.  After
ingesting any entry and then a second entry carrying the same nonzero
match id, exactly one matches row holds that id and it is exactly the
row extracted from the later entry; moreover running store_match_data
twice on identical input leaves the whole database state equal to a
single run (insert-or-replace idempotence). -/
theorem store_match_data_upsert_replace :
    (∀ (db : MatchDB) (e1 e2 : MatchData) (s1 s2 : Option Int) (l1 l2 : Bool) (mid : Int),
      (e1.matchInfo.getD emptyMatchInfo).matchId = some mid →
      (e2.matchInfo.getD emptyMatchInfo).matchId = some mid → mid ≠ 0 →
      (store_match_data (store_match_data db e1 s1 l1) e2 s2 l2).matchRows.filter
          (fun m => m.match_id == mid) = [extractedMatchRow e2 s2 l2]) ∧
    (∀ (db : MatchDB) (e : MatchData) (s : Option Int) (l : Bool),
      store_match_data (store_match_data db e s l) e s l = store_match_data db e s l) := by
  constructor
  · intro db e1 e2 s1 s2 l1 l2 mid h1 h2 hmid
    have hr : (extractedMatchRow e2 s2 l2).match_id = mid := by
      simp [extractedMatchRow, h2]
    rw [store_match_data_eq _ e2 s2 l2 mid h2 hmid]
    have hfil := insertOrReplaceMatch_filter
      (store_match_data db e1 s1 l1).matchRows (extractedMatchRow e2 s2 l2)
    simp only [hr] at hfil
    exact hfil
  · intro db e s l
    cases hmi : (e.matchInfo.getD emptyMatchInfo).matchId with
    | none => simp only [store_match_data, hmi]
    | some mid =>
      by_cases h0 : mid = 0
      · simp only [store_match_data, hmi, h0, if_pos]
      · rw [store_match_data_eq db e s l mid hmi h0,
          store_match_data_eq _ e s l mid hmi h0]
        simp only [MatchDB.mk.injEq]
        refine ⟨?_, ?_, ?_⟩
        · have habs := teamUpsert_absorb db.teams
            ((e.matchInfo.getD emptyMatchInfo).team1.getD emptyTeamInfo)
            ((e.matchInfo.getD emptyMatchInfo).team2.getD emptyTeamInfo)
          rw [habs]
          exact teamUpsert_idem _ _
        · exact venueUpsert_idem _ _
        · exact insertOrReplaceMatch_idem _ _

def exampleMatchE1 : MatchData :=
  { matchInfo := some
      { matchId := some 501, matchDesc := some "1st Test", matchFormat := some "TEST"
        startDate := some 1700000000000, stateTitle := some "Live"
        team1 := some ⟨some 10, some "India", some "IND"⟩
        team2 := some ⟨some 20, some "Australia", some "AUS"⟩
        venueInfo := some ⟨some 99, some "Wankhede", some "Mumbai"⟩ } }

def exampleMatchE2 : MatchData :=
  { matchInfo := some
      { matchId := some 501, matchDesc := some "1st Test", matchFormat := some "TEST"
        startDate := some 1700000000000, stateTitle := some "Completed"
        team1 := some ⟨some 10, some "India", some "IND"⟩
        team2 := some ⟨some 20, some "Australia", some "AUS"⟩
        venueInfo := some ⟨some 99, some "Wankhede", some "Mumbai"⟩ } }

theorem store_match_data_upsert_replace_witness :
    (exampleMatchE1.matchInfo.getD emptyMatchInfo).matchId = some 501 ∧
    (exampleMatchE2.matchInfo.getD emptyMatchInfo).matchId = some 501 ∧
    (store_match_data (store_match_data ⟨[], [], []⟩ exampleMatchE1 (some 7) false)
        exampleMatchE2 (some 7) false).matchRows.filter (fun m => m.match_id == 501) =
      [extractedMatchRow exampleMatchE2 (some 7) false] ∧
    (extractedMatchRow exampleMatchE2 (some 7) false).match_status = "Completed" :=
  ⟨rfl, rfl,
   store_match_data_upsert_replace.1 ⟨[], [], []⟩ exampleMatchE1 exampleMatchE2
     (some 7) (some 7) false false 501 rfl rfl (by decide),
   rfl⟩

/-! ## Aggregator: update_player_statistics

SQL REAL values are modelled exactly over the rationals.  The code-side
rounding round2Frac works on an integer fraction with kernel-reducible
integer arithmetic; roundAway / round2 state the same ROUND(x, 2)
(SQLite: half away from zero) directly over the rationals, and the two
are proved equal. -/

structure PerfRow where
  performance_id : Nat
  player_id : Nat
  match_id : Int
  team_id : Option Int
  innings_number : Nat
  batting_order : Option Int
  runs_scored : Int
  balls_faced : Int
  strike_rate : Rat
  fours : Int
  sixes : Int
  overs_bowled : Rat
  wickets_taken : Int
  runs_conceded : Int
  economy_rate : Rat
  maidens : Int
  out_desc : Option String
  player_key : String
  deriving Repr, DecidableEq

/-- Round half away from zero of the fraction a / b (b positive),
computed with integer division on nonnegative operands. -/
def roundAwayFrac (a b : Int) : Int :=
  if a < 0 then -((-a * 2 + b) / (2 * b)) else (a * 2 + b) / (2 * b)

/-- ROUND(a / b, 2) of SQLite on the exact rational a / b, b positive. -/
def round2Frac (a b : Int) : Rat :=
  mkRat (roundAwayFrac (100 * a) b) 100

/-- Round half away from zero, stated over the rationals. -/
def roundAway (x : Rat) : Int :=
  if x < 0 then -(⌊-x + 1 / 2⌋) else ⌊x + 1 / 2⌋

/-- ROUND(x, 2), stated over the rationals. -/
def round2 (x : Rat) : Rat := (roundAway (x * 100) : Rat) / 100

/-- The rows of one player, as selected by WHERE player_id = p. -/
def perfsOf (perfs : List PerfRow) (pid : Nat) : List PerfRow :=
  perfs.filter (fun r => r.player_id == pid)

/-- The rows feeding the batting average: WHERE player_id = p AND
runs_scored > 0. -/
def batRows (perfs : List PerfRow) (pid : Nat) : List PerfRow :=
  (perfsOf perfs pid).filter (fun r => decide (0 < r.runs_scored))

/-- The rows feeding the strike rate: WHERE player_id = p AND
balls_faced > 0. -/
def srRows (perfs : List PerfRow) (pid : Nat) : List PerfRow :=
  (perfsOf perfs pid).filter (fun r => decide (0 < r.balls_faced))

/-- COUNT(DISTINCT match_id) over the rows of one player. -/
def matchesPlayedAgg (perfs : List PerfRow) (pid : Nat) : Nat :=
  (((perfsOf perfs pid).map (fun r => r.match_id)).dedup).length

/-- COALESCE(SUM(runs_scored), 0) over the rows of one player. -/
def runsAgg (perfs : List PerfRow) (pid : Nat) : Int :=
  ((perfsOf perfs pid).map (fun r => r.runs_scored)).sum

/-- COALESCE(SUM(wickets_taken), 0) over the rows of one player. -/
def wicketsAgg (perfs : List PerfRow) (pid : Nat) : Int :=
  ((perfsOf perfs pid).map (fun r => r.wickets_taken)).sum

/-- The batting_average subquery: CASE WHEN COUNT(*) > 0 THEN
ROUND(SUM(runs_scored) / COUNT(*), 2) ELSE 0.0 END over batRows. -/
def battingAverage (perfs : List PerfRow) (pid : Nat) : Rat :=
  if 0 < (batRows perfs pid).length then
    round2Frac (((batRows perfs pid).map (fun r => r.runs_scored)).sum)
      ((batRows perfs pid).length : Int)
  else 0

/-- The strike_rate subquery: CASE WHEN SUM(balls_faced) > 0 THEN
ROUND(SUM(runs_scored) * 100 / SUM(balls_faced), 2) ELSE 0.0 END over
srRows (a NULL sum compares as not greater than zero). -/
def strikeRate (perfs : List PerfRow) (pid : Nat) : Rat :=
  if 0 < ((srRows perfs pid).map (fun r => r.balls_faced)).sum then
    round2Frac ((((srRows perfs pid).map (fun r => r.runs_scored)).sum) * 100)
      (((srRows perfs pid).map (fun r => r.balls_faced)).sum)
  else 0

/-- The players row columns touched by the modelled pipeline (columns
the code never writes, such as batting_style, are omitted). -/
structure PlayerRow where
  player_id : Nat
  player_name : String
  team_id : Option Int
  role : String
  matches_played : Nat
  runs_scored : Int
  wickets_taken : Int
  batting_average : Rat
  strike_rate : Rat
  player_key : String
  deriving Repr, DecidableEq

/-- update_player_statistics from data_fetcher.py: a single UPDATE that
recomputes the aggregate columns of every players row from
player_match_performance. -/
def update_player_statistics (players : List PlayerRow) (perfs : List PerfRow) :
    List PlayerRow :=
  players.map (fun p =>
    { p with
      matches_played := matchesPlayedAgg perfs p.player_id
      runs_scored := runsAgg perfs p.player_id
      wickets_taken := wicketsAgg perfs p.player_id
      batting_average := battingAverage perfs p.player_id
      strike_rate := strikeRate perfs p.player_id })

theorem roundAwayFrac_eq (n b : Int) (hb : 0 < b) :
    roundAwayFrac n b = roundAway ((n : Rat) / (b : Rat)) := by
  have hbq : (0 : Rat) < (b : Rat) := by exact_mod_cast hb
  have htn : ((2 * b).toNat : Int) = 2 * b := Int.toNat_of_nonneg (by omega)
  unfold roundAwayFrac roundAway
  by_cases hn : n < 0
  · have hx : (n : Rat) / (b : Rat) < 0 :=
      div_neg_of_neg_of_pos (by exact_mod_cast hn) hbq
    rw [if_pos hn, if_pos hx]
    congr 1
    have h1 : -((n : Rat) / (b : Rat)) + 1 / 2 =
        ((-n * 2 + b : Int) : Rat) / (((2 * b).toNat : Nat) : Rat) := by
      have h2 : (((2 * b).toNat : Nat) : Rat) = 2 * (b : Rat) := by
        exact_mod_cast congrArg (fun z : Int => (z : Rat)) htn
      have hb0 : (b : Rat) ≠ 0 := ne_of_gt hbq
      rw [h2]
      push_cast
      field_simp
      exact Or.inl (by ring)
    rw [h1, Rat.floor_intCast_div_natCast, htn]
  · have hx : ¬ ((n : Rat) / (b : Rat) < 0) := by
      push_neg
      exact div_nonneg (by exact_mod_cast (not_lt.mp hn)) (le_of_lt hbq)
    rw [if_neg hn, if_neg hx]
    have h1 : (n : Rat) / (b : Rat) + 1 / 2 =
        ((n * 2 + b : Int) : Rat) / (((2 * b).toNat : Nat) : Rat) := by
      have h2 : (((2 * b).toNat : Nat) : Rat) = 2 * (b : Rat) := by
        exact_mod_cast congrArg (fun z : Int => (z : Rat)) htn
      have hb0 : (b : Rat) ≠ 0 := ne_of_gt hbq
      rw [h2]
      push_cast
      field_simp
      exact Or.inl (by ring)
    rw [h1, Rat.floor_intCast_div_natCast, htn]

theorem round2Frac_eq (a b : Int) (hb : 0 < b) :
    round2Frac a b = round2 ((a : Rat) / (b : Rat)) := by
  unfold round2Frac round2
  rw [Rat.mkRat_eq_div, roundAwayFrac_eq (100 * a) b hb]
  congr 3
  push_cast
  ring

def examplePerfRow (n : Nat) (runs balls : Int) : PerfRow :=
  ⟨n, 500, 900, some 10, n, some n, runs, balls, 0, 0, 0, 0, 0, 0, 0, 0, none, "bk"⟩

/-- The two performance rows of the C4 example: (runs 50, balls 40) and
(runs 30, balls 20) for player 500. -/
def examplePerfs : List PerfRow :=
  [examplePerfRow 1 50 40, examplePerfRow 2 30 20]

/-- C4: for a player with qualifying rows the Aggregator writes
batting_average = ROUND(total runs / count of rows with runs_scored > 0, 2)
and strike_rate = ROUND(total runs * 100 / total balls, 2), totals over
rows with balls_faced > 0; update_player_statistics installs exactly
these aggregates on every players row; on the example rows (50, 40) and
(30, 20) the results are 40.0 and 133.33. -/
theorem update_player_statistics_formulas :
    (∀ (perfs : List PerfRow) (pid : Nat),
      0 < (batRows perfs pid).length →
      battingAverage perfs pid =
        round2 (((((batRows perfs pid).map (fun r => r.runs_scored)).sum : Int) : Rat) /
          ((batRows perfs pid).length : Rat))) ∧
    (∀ (perfs : List PerfRow) (pid : Nat),
      0 < ((srRows perfs pid).map (fun r => r.balls_faced)).sum →
      strikeRate perfs pid =
        round2 (((((srRows perfs pid).map (fun r => r.runs_scored)).sum : Int) : Rat) * 100 /
          ((((srRows perfs pid).map (fun r => r.balls_faced)).sum : Int) : Rat))) ∧
    (∀ (players : List PlayerRow) (perfs : List PerfRow) (p : PlayerRow),
      p ∈ players →
      { p with
        matches_played := matchesPlayedAgg perfs p.player_id
        runs_scored := runsAgg perfs p.player_id
        wickets_taken := wicketsAgg perfs p.player_id
        batting_average := battingAverage perfs p.player_id
        strike_rate := strikeRate perfs p.player_id } ∈
        update_player_statistics players perfs) ∧
    battingAverage examplePerfs 500 = 40 ∧
    strikeRate examplePerfs 500 = mkRat 13333 100 := by
  refine ⟨?_, ?_, ?_, ?_, ?_⟩
  · intro perfs pid h
    have hc : (((batRows perfs pid).length : Int) : Rat) =
        ((batRows perfs pid).length : Rat) := by
      push_cast
      ring
    unfold battingAverage
    rw [if_pos h, round2Frac_eq _ _ (by exact_mod_cast h), hc]
  · intro perfs pid h
    have hc : ((((srRows perfs pid).map (fun r => r.runs_scored)).sum * 100 : Int) : Rat) =
        ((((srRows perfs pid).map (fun r => r.runs_scored)).sum : Int) : Rat) * 100 := by
      push_cast
      ring
    unfold strikeRate
    rw [if_pos h, round2Frac_eq _ _ h, hc]
  · intro players perfs p hp
    unfold update_player_statistics
    exact List.mem_map_of_mem _ hp
  · decide
  · decide

theorem update_player_statistics_formulas_witness :
    0 < (batRows examplePerfs 500).length ∧
    0 < ((srRows examplePerfs 500).map (fun r => r.balls_faced)).sum ∧
    battingAverage examplePerfs 500 =
      round2 (((((batRows examplePerfs 500).map (fun r => r.runs_scored)).sum : Int) : Rat) /
        ((batRows examplePerfs 500).length : Rat)) ∧
    strikeRate examplePerfs 500 =
      round2 (((((srRows examplePerfs 500).map (fun r => r.runs_scored)).sum : Int) : Rat) * 100 /
        ((((srRows examplePerfs 500).map (fun r => r.balls_faced)).sum : Int) : Rat)) :=
  ⟨by decide, by decide,
   update_player_statistics_formulas.1 examplePerfs 500 (by decide),
   update_player_statistics_formulas.2.1 examplePerfs 500 (by decide)⟩

/-- C5: with no qualifying rows each aggregate takes its guarded
zero branch: a player with no performance rows gets batting_average 0.0
and strike_rate 0.0, and more generally an empty batting filter zeroes
the average and a nonpositive ball total zeroes the strike rate, with no
division performed. -/
theorem update_player_statistics_zero_guard :
    (∀ (perfs : List PerfRow) (pid : Nat), perfsOf perfs pid = [] →
      battingAverage perfs pid = 0 ∧ strikeRate perfs pid = 0) ∧
    (∀ (perfs : List PerfRow) (pid : Nat), (batRows perfs pid).length = 0 →
      battingAverage perfs pid = 0) ∧
    (∀ (perfs : List PerfRow) (pid : Nat),
      ((srRows perfs pid).map (fun r => r.balls_faced)).sum ≤ 0 →
      strikeRate perfs pid = 0) := by
  have hbat : ∀ (perfs : List PerfRow) (pid : Nat), (batRows perfs pid).length = 0 →
      battingAverage perfs pid = 0 := by
    intro perfs pid h
    unfold battingAverage
    rw [if_neg (by omega)]
  have hsr : ∀ (perfs : List PerfRow) (pid : Nat),
      ((srRows perfs pid).map (fun r => r.balls_faced)).sum ≤ 0 →
      strikeRate perfs pid = 0 := by
    intro perfs pid h
    unfold strikeRate
    rw [if_neg (by omega)]
  refine ⟨?_, hbat, hsr⟩
  intro perfs pid h
  constructor
  · apply hbat
    unfold batRows
    rw [h]
    rfl
  · apply hsr
    unfold srRows
    rw [h]
    simp

theorem update_player_statistics_zero_guard_witness :
    perfsOf [] 42 = [] ∧ battingAverage [] 42 = 0 ∧ strikeRate [] 42 = 0 :=
  ⟨rfl, (update_player_statistics_zero_guard.1 [] 42 rfl).1,
   (update_player_statistics_zero_guard.1 [] 42 rfl).2⟩

/-! ## Aggregator: update_team_statistics

The team_statistics schema gives stat_id as the only key; team_id has no
unique constraint.  The INSERT OR REPLACE therefore never meets a
conflict: every write inserts a new row under a fresh rowid. -/

structure TeamStatRow where
  stat_id : Nat
  team_id : Int
  matches_played : Nat
  matches_won : Nat
  matches_lost : Nat
  deriving Repr, DecidableEq

/-- SQLite assigns a fresh rowid one greater than the largest in use. -/
def freshStatId (rows : List TeamStatRow) : Nat :=
  (rows.foldl (fun m r => max m r.stat_id) 0) + 1

/-- The INSERT OR REPLACE INTO team_statistics of the source.  The
statement names no stat_id and team_id carries no unique constraint, so
the write can never conflict and appends a new row. -/
def insertTeamStat (rows : List TeamStatRow) (t : Int) (mp mw ml : Nat) :
    List TeamStatRow :=
  rows ++ [⟨freshStatId rows, t, mp, mw, ml⟩]

/-- The completed matches in which a team appears:
WHERE (team1_id = t OR team2_id = t) AND match_status = Completed. -/
def completedFor (ms : List MatchRow) (t : Int) : List MatchRow :=
  ms.filter (fun m =>
    (m.team1_id == some t || m.team2_id == some t) && m.match_status == "Completed")

/-- The per-team numbers computed by update_team_statistics:
matches_played = COUNT(*), matches_won = SUM(CASE WHEN match_winner_id =
t THEN 1 ELSE 0 END) (a NULL winner never compares equal), and
matches_lost = matches_played - matches_won. -/
def teamStatsEntry (ms : List MatchRow) (t : Int) : Nat × Nat × Nat :=
  let mp := (completedFor ms t).length
  let mw := ((completedFor ms t).filter (fun m => m.match_winner_id == some t)).length
  (mp, mw, mp - mw)

structure StatsDB where
  teams : List TeamRow
  matchRows : List MatchRow
  team_statistics : List TeamStatRow
  deriving Repr, DecidableEq

/-- update_team_statistics from data_fetcher.py: for every teams row, in
order, compute the team numbers and write them to team_statistics. -/
def update_team_statistics (db : StatsDB) : StatsDB :=
  { db with
    team_statistics :=
      db.teams.foldl (fun acc tr =>
        let e := teamStatsEntry db.matchRows tr.team_id
        insertTeamStat acc tr.team_id e.1 e.2.1 e.2.2) db.team_statistics }

/-- A one-team database with no matches and an empty statistics table. -/
def statsDB0 : StatsDB := ⟨[⟨1, "India", some "IND"⟩], [], []⟩

/-- C6 (failing-input evaluation): running the team-statistics
recomputation twice over a single team leaves two team_statistics rows
for that team, not one — the INSERT OR REPLACE cannot replace because
stat_id is always fresh and team_id has no unique constraint. -/
theorem update_team_statistics_duplicates_rows :
    ((update_team_statistics (update_team_statistics statsDB0)).team_statistics.filter
        (fun r => r.team_id == 1)).length = 2 ∧
    (update_team_statistics statsDB0).team_statistics.length = 1 := by
  decide

theorem length_filter_add_length_filter_not (l : List MatchRow) (p : MatchRow → Bool) :
    (l.filter p).length + (l.filter (fun m => !(p m))).length = l.length := by
  induction l with
  | nil => rfl
  | cons x xs ih =>
    by_cases hx : p x <;> simp [List.filter_cons, hx] <;> omega

/-- C10: the stored matches_lost always equals matches_played minus
matches_won, which equals the number of completed matches in which the
team appears but is not the recorded winner (draws, ties and NULL
winners all count as losses). -/
theorem teamStatsEntry_losses :
    ∀ (ms : List MatchRow) (t : Int),
      (teamStatsEntry ms t).2.2 = (teamStatsEntry ms t).1 - (teamStatsEntry ms t).2.1 ∧
      (teamStatsEntry ms t).2.2 =
        ((completedFor ms t).filter (fun m => !(m.match_winner_id == some t))).length := by
  intro ms t
  refine ⟨rfl, ?_⟩
  have h := length_filter_add_length_filter_not (completedFor ms t)
    (fun m => m.match_winner_id == some t)
  simp only [teamStatsEntry]
  omega

/-! ## make_api_request retry behaviour

The call is driven by the sequence of outcomes the server would return
to successive attempts of the same request. -/

inductive ApiResp where
  | ok (data : Nat)
  | rateLimited
  | httpError (code : Nat)
  | netError
  deriving Repr, DecidableEq

/-- make_api_request from data_fetcher.py: a 200 returns the payload; a
429 waits the fixed cooldown and then evaluates
return self.make_api_request(endpoint, params, description), i.e. the
whole call again, with no retry counter; any other status code or a
request exception returns None without retrying.  The result pairs the
outcome with the number of attempts made; none models the call still
running when the response script is exhausted. -/
def make_api_request : List ApiResp → Option (Option Nat × Nat)
  | [] => none
  | r :: rest =>
    match r with
    | .ok d => some (some d, 1)
    | .rateLimited => (make_api_request rest).map (fun p => (p.1, p.2 + 1))
    | .httpError _ => some (none, 1)
    | .netError => some (none, 1)

/-- Outcome of a single non-rate-limited response. -/
def firstOutcome : ApiResp → Option Nat
  | .ok d => some d
  | .rateLimited => none
  | .httpError _ => none
  | .netError => none

/-- C7 counterexample: on three consecutive rate-limit responses
followed by a success the caller makes four attempts of the same
request, so the call is not limited to at most two attempts. -/
theorem make_api_request_more_than_two_attempts :
    make_api_request
        [ApiResp.rateLimited, ApiResp.rateLimited, ApiResp.rateLimited, ApiResp.ok 5] =
      some (some 5, 4) ∧ ¬(4 ≤ 2) := by
  decide

/-- C7 (amended): after every rate-limit response the caller waits the
fixed cooldown and issues the same request again, without any bound on
the number of retries: with k consecutive rate-limit responses followed
by a non-rate-limit response, the call makes exactly k + 1 attempts and
returns that final response's outcome. -/
theorem make_api_request_unbounded_retry :
    ∀ (k : Nat) (r : ApiResp) (rest : List ApiResp), r ≠ ApiResp.rateLimited →
      make_api_request (List.replicate k ApiResp.rateLimited ++ r :: rest) =
        some (firstOutcome r, k + 1) := by
  intro k r rest hr
  induction k with
  | zero =>
    cases r with
    | ok d => rfl
    | rateLimited => exact absurd rfl hr
    | httpError c => rfl
    | netError => rfl
  | succ n ih =>
    simp only [List.replicate_succ, List.cons_append, make_api_request, List.append_eq,
      ih]
    rfl

theorem make_api_request_unbounded_retry_witness :
    (ApiResp.ok 7 ≠ ApiResp.rateLimited) ∧
    make_api_request (List.replicate 2 ApiResp.rateLimited ++ ApiResp.ok 7 :: []) =
      some (some 7, 3) :=
  ⟨by decide, make_api_request_unbounded_retry 2 (ApiResp.ok 7) [] (by decide)⟩

/-! ## Query facade write path (execute_update in utils/db_connection.py) -/

inductive WriteStmt where
  | insertTeam (r : TeamRow)
  | deleteTeam (id : Int)
  | setTeamSName (id : Int) (v : Option String)
  deriving Repr, DecidableEq

structure FacadeDB where
  teams : List TeamRow
  deriving Repr, DecidableEq

/-- Executing one write statement against the store.  A teams insert
checks the team_id primary key and the unique team_name and raises an
IntegrityError on violation; the update and delete forms cannot fail. -/
def applyStmt (db : FacadeDB) : WriteStmt → Except String FacadeDB
  | .insertTeam r =>
      if db.teams.any (fun t => t.team_id == r.team_id) then
        Except.error "UNIQUE constraint failed: teams.team_id"
      else if db.teams.any (fun t => t.team_name == r.team_name) then
        Except.error "UNIQUE constraint failed: teams.team_name"
      else Except.ok { db with teams := db.teams ++ [r] }
  | .deleteTeam tid =>
      Except.ok { db with teams := db.teams.filter (fun t => !(t.team_id == tid)) }
  | .setTeamSName tid v =>
      Except.ok { db with teams := db.teams.map (fun t =>
        if t.team_id == tid then { t with team_sname := v } else t) }

/-- execute_update from utils/db_connection.py: execute the statement,
commit and return True on success; on an exception roll back and return
False.  The second component is the state after commit or rollback. -/
def execute_update (db : FacadeDB) (stmt : WriteStmt) : Bool × FacadeDB :=
  match applyStmt db stmt with
  | Except.ok db2 => (true, db2)
  | Except.error _ => (false, db)

/-- C8: every write through the facade returns a boolean; True means
the statement's effect is committed in full, False means the state is
rolled back unchanged; in particular inserting a team whose unique
team_name already exists returns False and leaves the teams row count
unchanged. -/
theorem execute_update_contract :
    (∀ (db : FacadeDB) (stmt : WriteStmt),
      ((execute_update db stmt).1 = true ∧
        applyStmt db stmt = Except.ok (execute_update db stmt).2) ∨
      ((execute_update db stmt).1 = false ∧ (execute_update db stmt).2 = db)) ∧
    (∀ (db : FacadeDB) (r : TeamRow),
      db.teams.any (fun t => t.team_name == r.team_name) = true →
      (execute_update db (WriteStmt.insertTeam r)).1 = false ∧
      ((execute_update db (WriteStmt.insertTeam r)).2).teams.length = db.teams.length) := by
  constructor
  · intro db stmt
    cases h : applyStmt db stmt with
    | ok db2 =>
      left
      simp [execute_update, h]
    | error e =>
      right
      simp [execute_update, h]
  · intro db r h
    by_cases hid : db.teams.any (fun t => t.team_id == r.team_id) = true
    · simp [execute_update, applyStmt, hid]
    · simp [execute_update, applyStmt, hid, h]

def facadeDB0 : FacadeDB := ⟨[⟨1, "India", some "IND"⟩]⟩

def dupTeamRow : TeamRow := ⟨2, "India", some "IN2"⟩

theorem execute_update_contract_witness :
    facadeDB0.teams.any (fun t => t.team_name == dupTeamRow.team_name) = true ∧
    (execute_update facadeDB0 (WriteStmt.insertTeam dupTeamRow)).1 = false ∧
    ((execute_update facadeDB0 (WriteStmt.insertTeam dupTeamRow)).2).teams.length =
      facadeDB0.teams.length :=
  ⟨by decide,
   (execute_update_contract.2 facadeDB0 dupTeamRow (by decide)).1,
   (execute_update_contract.2 facadeDB0 dupTeamRow (by decide)).2⟩

/-! ## Scorecard Ingestor (store_scorecard_data_fixed)

The payload shapes mirror the keys the source reads from the hscard
JSON.  The batting performance INSERT of the source names team_id in its
parameter tuple, but the only bindings in scope are bat_team_id and
bowl_team_id: evaluating the tuple raises NameError, which the
function's own try/except turns into a logged message and a returned
count of 0, keeping the cursor writes made before the raise. -/

structure BatsmanData where
  batName : Option String
  batOrder : Option Int
  runs : Option Int
  balls : Option Int
  strikeRate : Option Rat
  fours : Option Int
  sixes : Option Int
  outDesc : Option String
  deriving Repr, DecidableEq

structure BatTeamDetails where
  batTeamId : Option Int
  batsmenData : Option (List (String × BatsmanData))
  deriving Repr, DecidableEq

structure BowlerData where
  bowlName : Option String
  overs : Option Rat
  wickets : Option Int
  runs : Option Int
  economy : Option Rat
  maidens : Option Int
  deriving Repr, DecidableEq

structure BowlTeamDetails where
  bowlTeamId : Option Int
  bowlersData : Option (List (String × BowlerData))
  deriving Repr, DecidableEq

structure InningsData where
  batTeamDetails : Option BatTeamDetails
  bowlTeamDetails : Option BowlTeamDetails
  deriving Repr, DecidableEq

structure ScorecardData where
  scoreCard : Option (List InningsData)
  deriving Repr, DecidableEq

structure ScDB where
  players : List PlayerRow
  perfs : List PerfRow
  deriving Repr, DecidableEq

/-- INSERT OR IGNORE INTO players (conflict on the player_id key);
aggregate columns take their schema defaults. -/
def insertOrIgnorePlayer (ps : List PlayerRow) (r : PlayerRow) : List PlayerRow :=
  if ps.any (fun p => p.player_id == r.player_id) then ps else ps ++ [r]

/-- SQLite assigns a fresh performance rowid. -/
def freshPerfId (perfs : List PerfRow) : Nat :=
  (perfs.foldl (fun m r => max m r.performance_id) 0) + 1

/-- The bowling path's INSERT OR IGNORE INTO player_match_performance:
a bare row for the (match_id, player_id, innings_number) triple, all
other columns at their schema defaults; ignored when a row for the
triple exists. -/
def insertOrIgnorePerf (perfs : List PerfRow) (pid : Nat) (mid : Int)
    (tid : Option Int) (inn : Nat) (key : String) : List PerfRow :=
  if perfs.any (fun r =>
      r.match_id == mid && r.player_id == pid && r.innings_number == inn) then perfs
  else perfs ++ [⟨freshPerfId perfs, pid, mid, tid, inn, none,
    0, 0, 0, 0, 0, 0, 0, 0, 0, 0, none, key⟩]

/-- The bowling path's UPDATE of the bowling columns on the triple. -/
def updateBowlingCols (perfs : List PerfRow) (pid : Nat) (mid : Int) (inn : Nat)
    (overs : Rat) (wkts rc : Int) (econ : Rat) (mdns : Int) : List PerfRow :=
  perfs.map (fun r =>
    if r.player_id == pid && r.match_id == mid && r.innings_number == inn then
      { r with
        overs_bowled := overs
        wickets_taken := wkts
        runs_conceded := rc
        economy_rate := econ
        maidens := mdns }
    else r)

/-- One batsmen entry: the player identity row is upserted, then the
performance INSERT's parameter tuple is evaluated; its third element is
the unbound name team_id, so the step raises NameError (returned as the
error component) with the player write already made on the cursor. -/
def storeBatsmanEntry (db : ScDB) (batTeamId : Option Int)
    (key : String) (pd : BatsmanData) : ScDB × Option String :=
  let player_name := pd.batName.getD ("Player_" ++ key)
  let pid := generate_player_id key player_name batTeamId
  let db1 : ScDB := { db with
    players := insertOrIgnorePlayer db.players
      ⟨pid, player_name, batTeamId, "Batsman", 0, 0, 0, 0, 0, key⟩ }
  (db1, some "NameError: name team_id is not defined")

/-- The batsmen loop; an error propagates with the state at the raise. -/
def storeBatsmen : ScDB → Option Int → List (String × BatsmanData) → ScDB × Option String
  | db, _, [] => (db, none)
  | db, tid, (k, pd) :: rest =>
    match storeBatsmanEntry db tid k pd with
    | (db1, none) => storeBatsmen db1 tid rest
    | (db1, some e) => (db1, some e)

/-- One bowlers entry: upsert the identity row with role Bowler, insert
the bare performance row for the triple if absent, then update the
bowling columns on the triple. -/
def storeBowlerEntry (db : ScDB) (mid : Int) (inn : Nat) (bowlTeamId : Option Int)
    (key : String) (bd : BowlerData) : ScDB :=
  let bowler_name := bd.bowlName.getD ("Bowler_" ++ key)
  let pid := generate_player_id key bowler_name bowlTeamId
  let players := insertOrIgnorePlayer db.players
    ⟨pid, bowler_name, bowlTeamId, "Bowler", 0, 0, 0, 0, 0, key⟩
  let perfs := insertOrIgnorePerf db.perfs pid mid bowlTeamId inn key
  let perfs := updateBowlingCols perfs pid mid inn (bd.overs.getD 0) (bd.wickets.getD 0)
    (bd.runs.getD 0) (bd.economy.getD 0) (bd.maidens.getD 0)
  ⟨players, perfs⟩

/-- The bowlers loop, counting the entries processed. -/
def storeBowlers : ScDB → Int → Nat → Option Int → List (String × BowlerData) → ScDB × Nat
  | db, _, _, _, [] => (db, 0)
  | db, mid, inn, tid, (k, bd) :: rest =>
    let r := storeBowlers (storeBowlerEntry db mid inn tid k bd) mid inn tid rest
    (r.1, r.2 + 1)

/-- One innings: an innings without batTeamDetails is skipped entirely
(continue), batting runs before bowling, and a batting error aborts the
innings (and the whole scorecard) at the raise. -/
def storeInnings (db : ScDB) (mid : Int) (inn : Nat) (ing : InningsData) :
    ScDB × Nat × Option String :=
  match ing.batTeamDetails with
  | none => (db, 0, none)
  | some btd =>
    let r1 :=
      match btd.batsmenData with
      | some entries => storeBatsmen db btd.batTeamId entries
      | none => (db, none)
    match r1.2 with
    | some e => (r1.1, 0, some e)
    | none =>
      match ing.bowlTeamDetails with
      | none => (r1.1, 0, none)
      | some bwd =>
        match bwd.bowlersData with
        | some entries =>
          let r2 := storeBowlers r1.1 mid inn bwd.bowlTeamId entries
          (r2.1, r2.2, none)
        | none => (r1.1, 0, none)

/-- The innings loop, innings numbered from 1 by enumerate. -/
def storeInningsList : ScDB → Int → Nat → List InningsData → ScDB × Nat × Option String
  | db, _, _, [] => (db, 0, none)
  | db, mid, inn, ing :: rest =>
    match storeInnings db mid inn ing with
    | (db1, c1, none) =>
      match storeInningsList db1 mid (inn + 1) rest with
      | (db2, c2, err) => (db2, c1 + c2, err)
    | (db1, _, some e) => (db1, 0, some e)

/-- store_scorecard_data_fixed from data_fetcher.py: walks the innings
list; the surrounding try/except catches any raise, logs it and returns
0, keeping the cursor writes already made. -/
def store_scorecard_data_fixed (db : ScDB) (mid : Int) (sd : ScorecardData) : ScDB × Nat :=
  match sd.scoreCard with
  | none => (db, 0)
  | some innings_list =>
    match storeInningsList db mid 1 innings_list with
    | (db1, cnt, none) => (db1, cnt)
    | (db1, _, some _) => (db1, 0)

/-- A scorecard in which the same (key, name, team) appears in both the
batting and the bowling block of innings 1. -/
def c1Scorecard : ScorecardData :=
  { scoreCard := some
      [{ batTeamDetails := some
           { batTeamId := some 10
             batsmenData := some
               [("pk1", ⟨some "Alice", some 1, some 50, some 40, some 125, some 6,
                 some 1, some "caught"⟩)] }
         bowlTeamDetails := some
           { bowlTeamId := some 10
             bowlersData := some
               [("pk1", ⟨some "Alice", some 4, some 2, some 30, some (mkRat 15 2),
                 some 1⟩)] } }] }

/-- C1 (failing-input evaluation): on a scorecard whose innings 1 has
the same player in the batting and the bowling block, the ingestor
stores no performance row at all: the batting INSERT raises NameError on
the unbound name team_id, the exception handler returns 0, and only the
player identity row written before the raise remains. -/
theorem store_scorecard_dual_role_no_performance_row :
    (store_scorecard_data_fixed ⟨[], []⟩ 900 c1Scorecard).2 = 0 ∧
    (store_scorecard_data_fixed ⟨[], []⟩ 900 c1Scorecard).1.perfs = [] ∧
    (store_scorecard_data_fixed ⟨[], []⟩ 900 c1Scorecard).1.players.length = 1 := by
  decide
